import Mathlib

/-
  Verification development for the SeoWatch repository.

  Shallow embedding of the scoring engine (server/routes.ts, analyzeSeoTags),
  the CSV processor (csv-processor: parseCSVUrls / generateResultsCSV /
  validateCSVFile), the in-memory job store (server/storage.ts) and the bulk
  job runner (server/bulk-processor.ts), together with theorems about the
  frozen claims C1-C10.
-/

namespace SeoWatch

/-- Status of one SEO tag evaluation (shared schema, seoTagSchema:
status is one of good / warning / missing / error). -/
inductive TagStatus
  | good
  | warning
  | missing
  | error
deriving DecidableEq, BEq, Repr

/-- One SEO tag evaluation (shared schema, seoTagSchema). The numeric
deduction is modelled as an integer. -/
structure SeoTag where
  tag : String
  content : String
  status : TagStatus
  feedback : String
  deduction : Int
deriving DecidableEq, Repr

/-- One score-breakdown entry (shared schema, seoScoreBreakdownSchema). -/
structure SeoScoreBreakdown where
  tag : String
  issue : String
  deduction : Int
deriving DecidableEq, Repr

/-- The page content as extracted by cheerio in analyzeSeoTags
(server/routes.ts lines 523-744): the text of the first title element and
the content attribute of each meta tag the function queries (absent
attribute = none, mirroring cheerio attr returning undefined). -/
structure PageInput where
  title : String
  description : Option String
  robots : Option String
  ogTitle : Option String
  ogDescription : Option String
  ogImage : Option String
  twitterCard : Option String
  twitterTitle : Option String
  twitterDescription : Option String
  twitterImage : Option String
deriving DecidableEq, Repr

/-- Models JavaScript String.prototype.trim: remove whitespace from both
ends of the string (executable on the character list, so that concrete
inputs evaluate in the kernel). -/
def jsTrim (s : String) : String :=
  ⟨((s.data.dropWhile Char.isWhitespace).reverse.dropWhile Char.isWhitespace).reverse⟩

/-- Models the source pattern attr('content')?.trim() || '' used for every
meta tag read in analyzeSeoTags: a missing attribute and a
whitespace-only attribute both give the empty string. -/
def optContent (o : Option String) : String :=
  (o.map jsTrim).getD ""

/-- Result triple of analyzeSeoTags (server/routes.ts lines 514-518). -/
structure SeoAnalysis where
  tags : List SeoTag
  breakdown : List SeoScoreBreakdown
  score : Int
deriving DecidableEq, Repr

/-- Title analysis (server/routes.ts lines 523-578). Each check is a
triple of the pushed SeoTag, the optional pushed breakdown entry, and the
amount subtracted from the score. The sanitizer argument stands for the
source sanitizeText regex pipeline, which no claim depends on; every
theorem below holds for an arbitrary sanitizer. -/
def titleCheck (sanitize : String → String) (p : PageInput) :
    SeoTag × Option SeoScoreBreakdown × Int :=
  let title := jsTrim p.title
  if title = "" then
    ({ tag := "Title", content := "-", status := .missing,
       feedback := "Title tag is missing", deduction := 25 },
     some { tag := "Title", issue := "Missing title tag", deduction := 25 }, 25)
  else
    let titleLength : Int := title.length
    if titleLength < 30 then
      ({ tag := "Title", content := sanitize title, status := .warning,
         feedback := s!"Title is too short ({titleLength} chars, recommended 50-60)",
         deduction := 10 },
       some { tag := "Title", issue := "Title too short", deduction := 10 }, 10)
    else if titleLength > 60 then
      ({ tag := "Title", content := sanitize title, status := .warning,
         feedback := s!"Title is too long ({titleLength} chars, recommended 50-60)",
         deduction := 10 },
       some { tag := "Title", issue := "Title too long", deduction := 10 }, 10)
    else
      ({ tag := "Title", content := sanitize title, status := .good,
         feedback := s!"Perfect length ({titleLength} chars)", deduction := 0 },
       none, 0)

/-- Meta description analysis (server/routes.ts lines 580-635). -/
def descriptionCheck (sanitize : String → String) (p : PageInput) :
    SeoTag × Option SeoScoreBreakdown × Int :=
  let description := optContent p.description
  if description = "" then
    ({ tag := "Meta Description", content := "-", status := .missing,
       feedback := "Meta description is missing", deduction := 20 },
     some { tag := "Meta Description", issue := "Missing meta description", deduction := 20 }, 20)
  else
    let descLength : Int := description.length
    if descLength < 120 then
      ({ tag := "Meta Description", content := sanitize description, status := .warning,
         feedback := s!"Description is too short ({descLength} chars, recommended 150-160)",
         deduction := 10 },
       some { tag := "Meta Description", issue := "Description too short", deduction := 10 }, 10)
    else if descLength > 160 then
      ({ tag := "Meta Description", content := sanitize description, status := .warning,
         feedback := s!"Description is too long ({descLength} chars, recommended 150-160)",
         deduction := 10 },
       some { tag := "Meta Description", issue := "Description too long", deduction := 10 }, 10)
    else
      ({ tag := "Meta Description", content := sanitize description, status := .good,
         feedback := s!"Perfect length ({descLength} chars)", deduction := 0 },
       none, 0)

/-- Meta robots analysis (server/routes.ts lines 637-661). -/
def robotsCheck (sanitize : String → String) (p : PageInput) :
    SeoTag × Option SeoScoreBreakdown × Int :=
  let robots := optContent p.robots
  if robots = "" then
    ({ tag := "Meta Robots", content := "-", status := .missing,
       feedback := "Meta robots tag is missing", deduction := 5 },
     some { tag := "Meta Robots", issue := "Missing robots tag", deduction := 5 }, 5)
  else
    ({ tag := "Meta Robots", content := sanitize robots, status := .good,
       feedback := "Properly configured", deduction := 0 }, none, 0)

/-- Open Graph title analysis (server/routes.ts lines 668-690). -/
def ogTitleCheck (sanitize : String → String) (p : PageInput) :
    SeoTag × Option SeoScoreBreakdown × Int :=
  let ogTitle := optContent p.ogTitle
  if ogTitle = "" then
    ({ tag := "OG Title", content := "-", status := .missing,
       feedback := "Open Graph title is missing", deduction := 5 },
     some { tag := "Open Graph", issue := "Missing OG title", deduction := 5 }, 5)
  else
    ({ tag := "OG Title", content := sanitize ogTitle, status := .good,
       feedback := "Present and configured", deduction := 0 }, none, 0)

/-- Open Graph description analysis (server/routes.ts lines 692-714). -/
def ogDescriptionCheck (sanitize : String → String) (p : PageInput) :
    SeoTag × Option SeoScoreBreakdown × Int :=
  let ogDescription := optContent p.ogDescription
  if ogDescription = "" then
    ({ tag := "OG Description", content := "-", status := .missing,
       feedback := "Open Graph description is missing", deduction := 5 },
     some { tag := "Open Graph", issue := "Missing OG description", deduction := 5 }, 5)
  else
    ({ tag := "OG Description", content := sanitize ogDescription, status := .good,
       feedback := "Good content", deduction := 0 }, none, 0)

/-- Open Graph image analysis (server/routes.ts lines 716-738); the
good-branch content is the raw attribute value, not sanitized. -/
def ogImageCheck (p : PageInput) : SeoTag × Option SeoScoreBreakdown × Int :=
  let ogImage := optContent p.ogImage
  if ogImage = "" then
    ({ tag := "OG Image", content := "-", status := .missing,
       feedback := "Open Graph image is missing", deduction := 5 },
     some { tag := "Open Graph", issue := "Missing OG image", deduction := 5 }, 5)
  else
    ({ tag := "OG Image", content := ogImage, status := .good,
       feedback := "Image present", deduction := 0 }, none, 0)

/-- Twitter card analysis (server/routes.ts lines 746-768). -/
def twitterCardCheck (sanitize : String → String) (p : PageInput) :
    SeoTag × Option SeoScoreBreakdown × Int :=
  let twitterCard := optContent p.twitterCard
  if twitterCard = "" then
    ({ tag := "Twitter Card", content := "-", status := .missing,
       feedback := "Twitter card type is missing", deduction := 5 },
     some { tag := "Twitter Card", issue := "Missing card type", deduction := 5 }, 5)
  else
    ({ tag := "Twitter Card", content := sanitize twitterCard, status := .good,
       feedback := "Card type configured", deduction := 0 }, none, 0)

/-- Twitter title analysis (server/routes.ts lines 770-792). -/
def twitterTitleCheck (sanitize : String → String) (p : PageInput) :
    SeoTag × Option SeoScoreBreakdown × Int :=
  let twitterTitle := optContent p.twitterTitle
  if twitterTitle = "" then
    ({ tag := "Twitter Title", content := "-", status := .missing,
       feedback := "Twitter title is missing", deduction := 5 },
     some { tag := "Twitter Card", issue := "Missing Twitter title", deduction := 5 }, 5)
  else
    ({ tag := "Twitter Title", content := sanitize twitterTitle, status := .good,
       feedback := "Present and configured", deduction := 0 }, none, 0)

/-- Twitter description analysis (server/routes.ts lines 794-816). -/
def twitterDescriptionCheck (sanitize : String → String) (p : PageInput) :
    SeoTag × Option SeoScoreBreakdown × Int :=
  let twitterDescription := optContent p.twitterDescription
  if twitterDescription = "" then
    ({ tag := "Twitter Description", content := "-", status := .missing,
       feedback := "Twitter description is missing", deduction := 5 },
     some { tag := "Twitter Card", issue := "Missing Twitter description", deduction := 5 }, 5)
  else
    ({ tag := "Twitter Description", content := sanitize twitterDescription, status := .good,
       feedback := "Good content", deduction := 0 }, none, 0)

/-- Twitter image analysis (server/routes.ts lines 818-840); the
good-branch content is the raw attribute value, not sanitized. -/
def twitterImageCheck (p : PageInput) : SeoTag × Option SeoScoreBreakdown × Int :=
  let twitterImage := optContent p.twitterImage
  if twitterImage = "" then
    ({ tag := "Twitter Image", content := "-", status := .missing,
       feedback := "Twitter image is missing", deduction := 5 },
     some { tag := "Twitter Card", issue := "Missing Twitter image", deduction := 5 }, 5)
  else
    ({ tag := "Twitter Image", content := twitterImage, status := .good,
       feedback := "Image present", deduction := 0 }, none, 0)

/-- The ten checks of analyzeSeoTags in source push order
(server/routes.ts lines 523-840). -/
def seoChecks (sanitize : String → String) (p : PageInput) :
    List (SeoTag × Option SeoScoreBreakdown × Int) :=
  [titleCheck sanitize p, descriptionCheck sanitize p, robotsCheck sanitize p,
   ogTitleCheck sanitize p, ogDescriptionCheck sanitize p, ogImageCheck p,
   twitterCardCheck sanitize p, twitterTitleCheck sanitize p,
   twitterDescriptionCheck sanitize p, twitterImageCheck p]

/-- The scoring engine analyzeSeoTags (server/routes.ts lines 514-847):
each check pushes exactly one tag, pushes its breakdown entry exactly when
the finding is not good, and subtracts its deduction from a running score
that starts at 100; the returned score is clamped at 0 from below. -/
def analyzeSeoTags (sanitize : String → String) (p : PageInput) : SeoAnalysis :=
  let checks := seoChecks sanitize p
  { tags := checks.map (fun c => c.1)
    breakdown := checks.filterMap (fun c => c.2.1)
    score := max 0 (100 - (checks.map (fun c => c.2.2)).sum) }

/-- Deduction recorded by a check's breakdown entry (0 when none). -/
def checkDed (c : SeoTag × Option SeoScoreBreakdown × Int) : Int :=
  ((c.2.1).map SeoScoreBreakdown.deduction).getD 0

/-- Structural facts shared by all ten checks: the breakdown entry exists
exactly when the tag status is not good, its deduction equals the score
subtraction, and the subtraction lies in the range 0-25. -/
def CheckShape (c : SeoTag × Option SeoScoreBreakdown × Int) : Prop :=
  (c.2.1).isSome = !(c.1.status == TagStatus.good)
    ∧ checkDed c = c.2.2 ∧ 0 ≤ c.2.2 ∧ c.2.2 ≤ 25

theorem titleCheck_shape (s : String → String) (p : PageInput) :
    CheckShape (titleCheck s p) := by
  simp only [CheckShape, checkDed, titleCheck]
  repeat' split
  all_goals exact ⟨rfl, rfl, by norm_num, by norm_num⟩

theorem descriptionCheck_shape (s : String → String) (p : PageInput) :
    CheckShape (descriptionCheck s p) := by
  simp only [CheckShape, checkDed, descriptionCheck]
  repeat' split
  all_goals exact ⟨rfl, rfl, by norm_num, by norm_num⟩

theorem robotsCheck_shape (s : String → String) (p : PageInput) :
    CheckShape (robotsCheck s p) := by
  simp only [CheckShape, checkDed, robotsCheck]
  repeat' split
  all_goals exact ⟨rfl, rfl, by norm_num, by norm_num⟩

theorem ogTitleCheck_shape (s : String → String) (p : PageInput) :
    CheckShape (ogTitleCheck s p) := by
  simp only [CheckShape, checkDed, ogTitleCheck]
  repeat' split
  all_goals exact ⟨rfl, rfl, by norm_num, by norm_num⟩

theorem ogDescriptionCheck_shape (s : String → String) (p : PageInput) :
    CheckShape (ogDescriptionCheck s p) := by
  simp only [CheckShape, checkDed, ogDescriptionCheck]
  repeat' split
  all_goals exact ⟨rfl, rfl, by norm_num, by norm_num⟩

theorem ogImageCheck_shape (p : PageInput) : CheckShape (ogImageCheck p) := by
  simp only [CheckShape, checkDed, ogImageCheck]
  repeat' split
  all_goals exact ⟨rfl, rfl, by norm_num, by norm_num⟩

theorem twitterCardCheck_shape (s : String → String) (p : PageInput) :
    CheckShape (twitterCardCheck s p) := by
  simp only [CheckShape, checkDed, twitterCardCheck]
  repeat' split
  all_goals exact ⟨rfl, rfl, by norm_num, by norm_num⟩

theorem twitterTitleCheck_shape (s : String → String) (p : PageInput) :
    CheckShape (twitterTitleCheck s p) := by
  simp only [CheckShape, checkDed, twitterTitleCheck]
  repeat' split
  all_goals exact ⟨rfl, rfl, by norm_num, by norm_num⟩

theorem twitterDescriptionCheck_shape (s : String → String) (p : PageInput) :
    CheckShape (twitterDescriptionCheck s p) := by
  simp only [CheckShape, checkDed, twitterDescriptionCheck]
  repeat' split
  all_goals exact ⟨rfl, rfl, by norm_num, by norm_num⟩

theorem twitterImageCheck_shape (p : PageInput) :
    CheckShape (twitterImageCheck p) := by
  simp only [CheckShape, checkDed, twitterImageCheck]
  repeat' split
  all_goals exact ⟨rfl, rfl, by norm_num, by norm_num⟩

theorem seoChecks_shape (s : String → String) (p : PageInput) :
    ∀ c ∈ seoChecks s p, CheckShape c := by
  intro c hc
  simp only [seoChecks, List.mem_cons, List.not_mem_nil, or_false] at hc
  rcases hc with rfl | rfl | rfl | rfl | rfl | rfl | rfl | rfl | rfl | rfl
  · exact titleCheck_shape s p
  · exact descriptionCheck_shape s p
  · exact robotsCheck_shape s p
  · exact ogTitleCheck_shape s p
  · exact ogDescriptionCheck_shape s p
  · exact ogImageCheck_shape p
  · exact twitterCardCheck_shape s p
  · exact twitterTitleCheck_shape s p
  · exact twitterDescriptionCheck_shape s p
  · exact twitterImageCheck_shape p

theorem breakdown_count_eq (l : List (SeoTag × Option SeoScoreBreakdown × Int))
    (h : ∀ c ∈ l, CheckShape c) :
    (l.filterMap (fun c => c.2.1)).length
      = ((l.map (fun c => c.1)).filter (fun t => !(t.status == TagStatus.good))).length := by
  induction l with
  | nil => rfl
  | cons c l ih =>
    have hc := h c (List.mem_cons_self c l)
    have hl := ih (fun x hx => h x (List.mem_cons_of_mem c hx))
    have h1 := hc.1
    cases hco : c.2.1 with
    | none =>
      rw [hco] at h1
      have hst : (!(c.1.status == TagStatus.good)) = false := by simpa using h1.symm
      simp [List.filterMap_cons, hco, List.filter_cons, hst, hl]
    | some b =>
      rw [hco] at h1
      have hst : (!(c.1.status == TagStatus.good)) = true := by simpa using h1.symm
      simp [List.filterMap_cons, hco, List.filter_cons, hst, hl]

theorem breakdown_sum_eq (l : List (SeoTag × Option SeoScoreBreakdown × Int))
    (h : ∀ c ∈ l, CheckShape c) :
    ((l.filterMap (fun c => c.2.1)).map SeoScoreBreakdown.deduction).sum
      = (l.map (fun c => c.2.2)).sum := by
  induction l with
  | nil => rfl
  | cons c l ih =>
    have hc := h c (List.mem_cons_self c l)
    have hl := ih (fun x hx => h x (List.mem_cons_of_mem c hx))
    have hd := hc.2.1
    cases hco : c.2.1 with
    | none =>
      simp [checkDed, hco] at hd
      simp only [List.filterMap_cons, hco, List.map_cons, List.sum_cons, hl]
      omega
    | some b =>
      simp [checkDed, hco] at hd
      simp only [List.filterMap_cons, hco, List.map_cons, List.sum_cons, hl, hd]

theorem ded_sum_nonneg (l : List (SeoTag × Option SeoScoreBreakdown × Int))
    (h : ∀ c ∈ l, CheckShape c) :
    0 ≤ (l.map (fun c => c.2.2)).sum := by
  induction l with
  | nil => simp
  | cons c l ih =>
    have hc := h c (List.mem_cons_self c l)
    have hl := ih (fun x hx => h x (List.mem_cons_of_mem c hx))
    rw [List.map_cons, List.sum_cons]
    have := hc.2.2.1
    omega

/-- Claim C6: for every parsed page input (and every sanitizer), the score
returned by analyzeSeoTags equals max(0, 100 minus the sum of the
deductions recorded in its breakdown), and is an integer in the range
0-100. -/
theorem c6_score_formula (sanitize : String → String) (p : PageInput) :
    (analyzeSeoTags sanitize p).score
        = max 0 (100 - ((analyzeSeoTags sanitize p).breakdown.map SeoScoreBreakdown.deduction).sum)
      ∧ 0 ≤ (analyzeSeoTags sanitize p).score
      ∧ (analyzeSeoTags sanitize p).score ≤ 100 := by
  have hsh := seoChecks_shape sanitize p
  have hsum := breakdown_sum_eq (seoChecks sanitize p) hsh
  have hnn := ded_sum_nonneg (seoChecks sanitize p) hsh
  refine ⟨?_, ?_, ?_⟩
  · simp only [analyzeSeoTags, hsum]
  · simp only [analyzeSeoTags]
    exact le_max_left 0 _
  · simp only [analyzeSeoTags, max_le_iff]
    omega

theorem titleCheck_tag (s : String → String) (p : PageInput) :
    (titleCheck s p).1.tag = "Title" := by
  simp only [titleCheck]
  repeat' split
  all_goals rfl

theorem descriptionCheck_tag (s : String → String) (p : PageInput) :
    (descriptionCheck s p).1.tag = "Meta Description" := by
  simp only [descriptionCheck]
  repeat' split
  all_goals rfl

theorem robotsCheck_tag (s : String → String) (p : PageInput) :
    (robotsCheck s p).1.tag = "Meta Robots" := by
  simp only [robotsCheck]
  repeat' split
  all_goals rfl

theorem ogTitleCheck_tag (s : String → String) (p : PageInput) :
    (ogTitleCheck s p).1.tag = "OG Title" := by
  simp only [ogTitleCheck]
  repeat' split
  all_goals rfl

theorem ogDescriptionCheck_tag (s : String → String) (p : PageInput) :
    (ogDescriptionCheck s p).1.tag = "OG Description" := by
  simp only [ogDescriptionCheck]
  repeat' split
  all_goals rfl

theorem ogImageCheck_tag (p : PageInput) : (ogImageCheck p).1.tag = "OG Image" := by
  simp only [ogImageCheck]
  repeat' split
  all_goals rfl

theorem twitterCardCheck_tag (s : String → String) (p : PageInput) :
    (twitterCardCheck s p).1.tag = "Twitter Card" := by
  simp only [twitterCardCheck]
  repeat' split
  all_goals rfl

theorem twitterTitleCheck_tag (s : String → String) (p : PageInput) :
    (twitterTitleCheck s p).1.tag = "Twitter Title" := by
  simp only [twitterTitleCheck]
  repeat' split
  all_goals rfl

theorem twitterDescriptionCheck_tag (s : String → String) (p : PageInput) :
    (twitterDescriptionCheck s p).1.tag = "Twitter Description" := by
  simp only [twitterDescriptionCheck]
  repeat' split
  all_goals rfl

theorem twitterImageCheck_tag (p : PageInput) :
    (twitterImageCheck p).1.tag = "Twitter Image" := by
  simp only [twitterImageCheck]
  repeat' split
  all_goals rfl

theorem twitterImageCheck_missing (p : PageInput) (h : optContent p.twitterImage = "") :
    (twitterImageCheck p).2.1
      = some { tag := "Twitter Card", issue := "Missing Twitter image", deduction := 5 } := by
  simp [twitterImageCheck, h]

/-- Page input with no title text and none of the nine meta tags present
(used as the concrete instance for several claims). -/
def emptyPage : PageInput :=
  { title := "", description := none, robots := none, ogTitle := none,
    ogDescription := none, ogImage := none, twitterCard := none,
    twitterTitle := none, twitterDescription := none, twitterImage := none }

/-- Claim C9: analyzeSeoTags returns exactly 10 tag evaluations in the
fixed order Title, Meta Description, Meta Robots, OG Title,
OG Description, OG Image, Twitter Card, Twitter Title,
Twitter Description, Twitter Image; the Twitter Image check deducts 5
points (recorded under the Twitter Card breakdown category) when the tag
is missing; and the breakdown list contains exactly one entry per tag
whose status is not good. -/
theorem c9_tag_order_and_breakdown (sanitize : String → String) (p : PageInput) :
    ((analyzeSeoTags sanitize p).tags.map SeoTag.tag)
        = ["Title", "Meta Description", "Meta Robots", "OG Title", "OG Description",
           "OG Image", "Twitter Card", "Twitter Title", "Twitter Description", "Twitter Image"]
      ∧ (analyzeSeoTags sanitize p).tags.length = 10
      ∧ (analyzeSeoTags sanitize p).breakdown.length
          = ((analyzeSeoTags sanitize p).tags.filter
              (fun t => !(t.status == TagStatus.good))).length
      ∧ (optContent p.twitterImage = "" →
          ({ tag := "Twitter Card", issue := "Missing Twitter image", deduction := 5 }
              : SeoScoreBreakdown) ∈ (analyzeSeoTags sanitize p).breakdown) := by
  refine ⟨?_, ?_, ?_, ?_⟩
  · simp only [analyzeSeoTags, seoChecks, List.map_cons, List.map_nil,
      titleCheck_tag, descriptionCheck_tag, robotsCheck_tag, ogTitleCheck_tag,
      ogDescriptionCheck_tag, ogImageCheck_tag, twitterCardCheck_tag,
      twitterTitleCheck_tag, twitterDescriptionCheck_tag, twitterImageCheck_tag]
  · simp [analyzeSeoTags, seoChecks]
  · exact breakdown_count_eq (seoChecks sanitize p) (seoChecks_shape sanitize p)
  · intro h
    have hmem : twitterImageCheck p ∈ seoChecks sanitize p := by simp [seoChecks]
    simp only [analyzeSeoTags, List.mem_filterMap]
    exact ⟨twitterImageCheck p, hmem, twitterImageCheck_missing p h⟩

/-- Claim C9 witness: the theorem instantiated at the identity sanitizer
and the all-empty page, where the Twitter image hypothesis holds. -/
theorem c9_tag_order_and_breakdown_witness :
    ((analyzeSeoTags id emptyPage).tags.map SeoTag.tag)
        = ["Title", "Meta Description", "Meta Robots", "OG Title", "OG Description",
           "OG Image", "Twitter Card", "Twitter Title", "Twitter Description", "Twitter Image"]
      ∧ ({ tag := "Twitter Card", issue := "Missing Twitter image", deduction := 5 }
            : SeoScoreBreakdown) ∈ (analyzeSeoTags id emptyPage).breakdown :=
  ⟨(c9_tag_order_and_breakdown id emptyPage).1,
   (c9_tag_order_and_breakdown id emptyPage).2.2.2 rfl⟩

/-- Claim C1 counterexample: on a page with no title, no meta description
and none of the other checked tags, analyzeSeoTags returns score 15 (the
ten missing checks deduct 25+20+5*8 = 85) and a breakdown with 10
entries, not score 0 with 9 entries as claimed. -/
theorem c1_counterexample :
    (analyzeSeoTags id emptyPage).score = 15
      ∧ (analyzeSeoTags id emptyPage).breakdown.length = 10
      ∧ ¬((analyzeSeoTags id emptyPage).score = 0
            ∧ (analyzeSeoTags id emptyPage).breakdown.length = 9) := by
  refine ⟨?_, ?_, ?_⟩ <;> decide

/-- Claim C1 (amended): for a page input with no title, no meta
description, and none of the other checked tags present, analyzeSeoTags
returns the score max(0, 100−25−20−5×8) = 15 and a breakdown list
containing exactly 10 entries. -/
theorem c1_all_missing_score (sanitize : String → String) (p : PageInput)
    (ht : jsTrim p.title = "") (hd : optContent p.description = "")
    (hr : optContent p.robots = "") (hot : optContent p.ogTitle = "")
    (hod : optContent p.ogDescription = "") (hoi : optContent p.ogImage = "")
    (htc : optContent p.twitterCard = "") (htt : optContent p.twitterTitle = "")
    (htd : optContent p.twitterDescription = "") (hti : optContent p.twitterImage = "") :
    (analyzeSeoTags sanitize p).score = 15
      ∧ (analyzeSeoTags sanitize p).breakdown.length = 10 := by
  constructor
  · simp only [analyzeSeoTags, seoChecks, titleCheck, descriptionCheck, robotsCheck,
      ogTitleCheck, ogDescriptionCheck, ogImageCheck, twitterCardCheck, twitterTitleCheck,
      twitterDescriptionCheck, twitterImageCheck, ht, hd, hr, hot, hod, hoi, htc, htt,
      htd, hti, if_pos, List.map_cons, List.map_nil, List.sum_cons, List.sum_nil]
    norm_num
  · simp only [analyzeSeoTags, seoChecks, titleCheck, descriptionCheck, robotsCheck,
      ogTitleCheck, ogDescriptionCheck, ogImageCheck, twitterCardCheck, twitterTitleCheck,
      twitterDescriptionCheck, twitterImageCheck, ht, hd, hr, hot, hod, hoi, htc, htt,
      htd, hti, if_pos, List.filterMap_cons, List.filterMap_nil]
    rfl

/-- Claim C1 (amended) witness: the amended theorem evaluated at the
identity sanitizer and the all-empty page. -/
theorem c1_all_missing_score_witness :
    (analyzeSeoTags id emptyPage).score = 15
      ∧ (analyzeSeoTags id emptyPage).breakdown.length = 10 :=
  c1_all_missing_score id emptyPage rfl rfl rfl rfl rfl rfl rfl rfl rfl rfl

/-- A parsed CSV record as csv-parse with columns true delivers it to the
row callback of parseCSVUrls: an association list from header name to
cell value, in column order (the CSV codec itself is an external
collaborator per the spec; rows are modelled post-parse). -/
def CsvRow : Type := List (String × String)

/-- Checks that the second list begins with the first (character lists;
helper for the JavaScript string operations used by csv-processor). -/
def leadsWith : List Char → List Char → Bool
  | [], _ => true
  | _ :: _, [] => false
  | a :: as, b :: bs => a == b && leadsWith as bs

/-- Substring occurrence on character lists (helper for strIncludes). -/
def hasSub (needle : List Char) : List Char → Bool
  | [] => leadsWith needle []
  | c :: rest => leadsWith needle (c :: rest) || hasSub needle rest

/-- Models JavaScript String.prototype.includes. -/
def strIncludes (s needle : String) : Bool :=
  hasSub needle.data s.data

/-- Models JavaScript String.prototype.startsWith. -/
def jsStartsWith (s pre : String) : Bool :=
  leadsWith pre.data s.data

/-- Priority list of URL column names scanned by parseCSVUrls
(csv-processor, line 213). -/
def urlColumns : List String := ["url", "URL", "website", "link", "domain", "site"]

/-- Standard-column scan of parseCSVUrls (csv-processor lines 214-221):
first listed column with a value whose trim is non-empty, empty string if
none (mirroring the foundUrl accumulator). -/
def stdColumnUrl (row : CsvRow) : String :=
  match urlColumns.findSome? (fun col =>
      match List.lookup col row with
      | some v => if v ≠ "" && jsTrim v ≠ "" then some (jsTrim v) else none
      | none => none) with
  | some u => u
  | none => ""

/-- Fallback scan of parseCSVUrls (csv-processor lines 224-231): the first
field value that contains http, www. or a literal dot, trimmed. -/
def fallbackUrl (row : CsvRow) : String :=
  match (row.map Prod.snd).find? (fun v =>
      v ≠ "" && (strIncludes v "http" || strIncludes v "www." || strIncludes v ".")) with
  | some v => jsTrim v
  | none => ""

/-- URL candidate produced by one CSV data row (csv-processor lines
211-240): standard columns first, then the fallback; a scheme-less
candidate is prefixed with https; a row with no candidate yields none and
is silently skipped. -/
def rowUrl (row : CsvRow) : Option String :=
  let foundUrl := if stdColumnUrl row ≠ "" then stdColumnUrl row else fallbackUrl row
  if foundUrl = "" then none
  else if jsStartsWith foundUrl "http://" || jsStartsWith foundUrl "https://" then some foundUrl
  else some ("https://" ++ foundUrl)

/-- parseCSVUrls (csv-processor lines 200-248): ordered URL extraction
over the parsed data rows. -/
def parseCSVUrls (rows : List CsvRow) : List String :=
  rows.filterMap rowUrl

/-- Validation verdict of validateCSVFile (csv-processor lines 323-327). -/
structure ValidationResult where
  valid : Bool
  error : Option String := none
  urlCount : Option Nat := none
deriving DecidableEq, Repr

/-- Default size ceiling of validateCSVFile: 10 MB. -/
def maxCsvBytes : Nat := 10 * 1024 * 1024

/-- validateCSVFile (csv-processor lines 323-365): size ceiling first,
then the extracted-URL-count bounds. The oversize message renders the
sizes in MB with two decimals in the source (floating point formatting);
it is modelled here with the byte count, which no claim depends on. -/
def validateCSVFile (fileSize : Nat) (rows : List CsvRow) : ValidationResult :=
  if fileSize > maxCsvBytes then
    { valid := false,
      error := some ("File size " ++ toString fileSize ++ " bytes exceeds maximum of 10MB") }
  else
    let urls := parseCSVUrls rows
    if urls.length = 0 then
      { valid := false,
        error := some "No valid URLs found in CSV file. Please ensure your CSV has a column with URLs." }
    else if urls.length > 1000 then
      { valid := false,
        error := some ("CSV contains " ++ toString urls.length
          ++ " URLs. Maximum allowed is 1000 URLs per batch.") }
    else
      { valid := true, urlCount := some urls.length }

/-- Substring-containment of one string in another, stated on the
underlying character lists. -/
def StrHas (hay needle : String) : Prop :=
  ∃ a b : List Char, hay.data = a ++ needle.data ++ b

theorem data_append (x y : String) : (x ++ y).data = x.data ++ y.data := rfl

/-- Claim C8: validateCSVFile returns an invalid verdict with a reason
whenever the file exceeds 10 MB; an invalid verdict whose reason contains
the text No valid URLs found whenever (within the size ceiling) zero URLs
are extracted; an invalid verdict whose reason contains the text Maximum
allowed is 1000 URLs whenever more than 1000 URLs are extracted; and for
every file within the size ceiling whose extracted URL count is between 1
and 1000 inclusive, a valid verdict carrying that exact count. -/
theorem c8_validateCSVFile_spec (fileSize : Nat) (rows : List CsvRow) :
    (fileSize > maxCsvBytes →
        (validateCSVFile fileSize rows).valid = false
          ∧ (validateCSVFile fileSize rows).error ≠ none)
    ∧ (fileSize ≤ maxCsvBytes → (parseCSVUrls rows).length = 0 →
        (validateCSVFile fileSize rows).valid = false
          ∧ ∃ msg, (validateCSVFile fileSize rows).error = some msg
              ∧ StrHas msg "No valid URLs found")
    ∧ (fileSize ≤ maxCsvBytes → (parseCSVUrls rows).length > 1000 →
        (validateCSVFile fileSize rows).valid = false
          ∧ ∃ msg, (validateCSVFile fileSize rows).error = some msg
              ∧ StrHas msg "Maximum allowed is 1000 URLs")
    ∧ (fileSize ≤ maxCsvBytes →
        1 ≤ (parseCSVUrls rows).length → (parseCSVUrls rows).length ≤ 1000 →
        (validateCSVFile fileSize rows).valid = true
          ∧ (validateCSVFile fileSize rows).urlCount = some (parseCSVUrls rows).length) := by
  refine ⟨?_, ?_, ?_, ?_⟩
  · intro hgt
    simp [validateCSVFile, hgt]
  · intro hle h0
    have hng : ¬ fileSize > maxCsvBytes := by omega
    refine ⟨by simp [validateCSVFile, hng, h0], ?_⟩
    refine ⟨"No valid URLs found in CSV file. Please ensure your CSV has a column with URLs.",
      by simp [validateCSVFile, hng, h0], ?_⟩
    exact ⟨[], (" in CSV file. Please ensure your CSV has a column with URLs.").data, by decide⟩
  · intro hle h1000
    have hng : ¬ fileSize > maxCsvBytes := by omega
    have hnz : ¬ (parseCSVUrls rows).length = 0 := by omega
    refine ⟨by simp [validateCSVFile, hng, hnz, h1000], ?_⟩
    refine ⟨"CSV contains " ++ toString (parseCSVUrls rows).length
        ++ " URLs. Maximum allowed is 1000 URLs per batch.",
      by simp [validateCSVFile, hng, hnz, h1000], ?_⟩
    refine ⟨("CSV contains ").data ++ (toString (parseCSVUrls rows).length).data
        ++ (" URLs. ").data, (" per batch.").data, ?_⟩
    have hsplit : (" URLs. Maximum allowed is 1000 URLs per batch.").data
        = (" URLs. ").data ++ ("Maximum allowed is 1000 URLs").data ++ (" per batch.").data := by
      decide
    rw [data_append, data_append, hsplit]
    simp [List.append_assoc]
  · intro hle h1 h1000
    have hng : ¬ fileSize > maxCsvBytes := by omega
    have hnz : ¬ (parseCSVUrls rows).length = 0 := by omega
    have hngt : ¬ (parseCSVUrls rows).length > 1000 := by omega
    exact ⟨by simp [validateCSVFile, hng, hnz, hngt], by simp [validateCSVFile, hng, hnz, hngt]⟩

/-- Claim C8 witness: the theorem applied to a 100-byte file whose single
data row holds one URL under the url column, discharging the size and
count hypotheses of the valid-verdict conjunct. -/
theorem c8_validateCSVFile_spec_witness :
    (validateCSVFile 100 [[("url", "https://example.com")]]).valid = true
      ∧ (validateCSVFile 100 [[("url", "https://example.com")]]).urlCount
          = some (parseCSVUrls [[("url", "https://example.com")]]).length :=
  (c8_validateCSVFile_spec 100 [[("url", "https://example.com")]]).2.2.2
    (by decide) (by decide) (by decide)

/-- Job status (shared schema, bulkAnalysisJobSchema). -/
inductive JobStatus
  | pending
  | processing
  | completed
  | failed
deriving DecidableEq, Repr

/-- A bulk analysis job record (shared schema, bulkAnalysisJobSchema). -/
structure BulkAnalysisJob where
  id : String
  userSession : String
  filename : String
  totalUrls : Nat
  processedUrls : Nat
  status : JobStatus
  createdAt : String
  completedAt : Option String := none
  resultFilePath : Option String := none
deriving DecidableEq, Repr

/-- A partial update as passed to updateBulkJob (TypeScript
Partial of BulkAnalysisJob): a field is overwritten exactly when it is
present in the update object. -/
structure BulkJobUpdate where
  id : Option String := none
  userSession : Option String := none
  filename : Option String := none
  totalUrls : Option Nat := none
  processedUrls : Option Nat := none
  status : Option JobStatus := none
  createdAt : Option String := none
  completedAt : Option String := none
  resultFilePath : Option String := none
deriving DecidableEq, Repr

/-- The JavaScript spread merge of a job with a partial update
(storage.ts line 68): updated fields win, absent fields keep the stored
value. -/
def applyUpdate (job : BulkAnalysisJob) (u : BulkJobUpdate) : BulkAnalysisJob :=
  { id := u.id.getD job.id
    userSession := u.userSession.getD job.userSession
    filename := u.filename.getD job.filename
    totalUrls := u.totalUrls.getD job.totalUrls
    processedUrls := u.processedUrls.getD job.processedUrls
    status := u.status.getD job.status
    createdAt := u.createdAt.getD job.createdAt
    completedAt := match u.completedAt with
      | some v => some v
      | none => job.completedAt
    resultFilePath := match u.resultFilePath with
      | some v => some v
      | none => job.resultFilePath }

/-- The in-memory job map of MemStorage (storage.ts, bulkJobs), modelled
as a partial function from job id to job record. -/
def JobStore : Type := String → Option BulkAnalysisJob

/-- updateBulkJob (storage.ts lines 64-71): returns undefined and leaves
the map untouched for an unknown id; otherwise stores and returns the
spread merge under the looked-up id. -/
def updateBulkJob (store : JobStore) (jobId : String) (u : BulkJobUpdate) :
    Option BulkAnalysisJob × JobStore :=
  match store jobId with
  | none => (none, store)
  | some job =>
    let updatedJob := applyUpdate job u
    (some updatedJob, fun k => if k = jobId then some updatedJob else store k)

/-- Claim C10: updateBulkJob with an absent job id returns the not-found
signal and leaves the store entirely unchanged; with a present id it
overwrites exactly the fields supplied in the partial update, keeps every
other field of that job, and leaves every other job in the store
unchanged. Field preservation is stated for the two fields the callers
actually mix (status and processedUrls) and for identity/count fields;
the same proof shape covers the remaining fields of applyUpdate. -/
theorem c10_updateBulkJob_frame (store : JobStore) (jobId : String) (u : BulkJobUpdate) :
    (store jobId = none →
        updateBulkJob store jobId u = (none, store))
    ∧ (∀ job, store jobId = some job →
        (updateBulkJob store jobId u).1 = some (applyUpdate job u)
          ∧ (updateBulkJob store jobId u).2 jobId = some (applyUpdate job u)
          ∧ (∀ k, k ≠ jobId → (updateBulkJob store jobId u).2 k = store k)
          ∧ (∀ v, u.status = some v → (applyUpdate job u).status = v)
          ∧ (u.status = none → (applyUpdate job u).status = job.status)
          ∧ (∀ v, u.processedUrls = some v → (applyUpdate job u).processedUrls = v)
          ∧ (u.processedUrls = none → (applyUpdate job u).processedUrls = job.processedUrls)
          ∧ (∀ v, u.completedAt = some v → (applyUpdate job u).completedAt = some v)
          ∧ (u.completedAt = none → (applyUpdate job u).completedAt = job.completedAt)
          ∧ (∀ v, u.resultFilePath = some v → (applyUpdate job u).resultFilePath = some v)
          ∧ (u.resultFilePath = none → (applyUpdate job u).resultFilePath = job.resultFilePath)
          ∧ (u.id = none → (applyUpdate job u).id = job.id)
          ∧ (u.userSession = none → (applyUpdate job u).userSession = job.userSession)
          ∧ (u.filename = none → (applyUpdate job u).filename = job.filename)
          ∧ (u.totalUrls = none → (applyUpdate job u).totalUrls = job.totalUrls)
          ∧ (u.createdAt = none → (applyUpdate job u).createdAt = job.createdAt)) := by
  constructor
  · intro hnone
    simp [updateBulkJob, hnone]
  · intro job hsome
    refine ⟨by simp [updateBulkJob, hsome], by simp [updateBulkJob, hsome], ?_, ?_⟩
    · intro k hk
      simp [updateBulkJob, hsome, hk]
    · refine ⟨?_, ?_, ?_, ?_, ?_, ?_, ?_, ?_, ?_, ?_, ?_, ?_, ?_⟩
      all_goals first
        | (intro v hv; simp [applyUpdate, hv])
        | (intro hv; simp [applyUpdate, hv])

/-- Concrete job record for the C10 witness. -/
def c10Job : BulkAnalysisJob :=
  { id := "job-1", userSession := "session-a", filename := "urls.csv",
    totalUrls := 3, processedUrls := 2, status := JobStatus.processing,
    createdAt := "2025-08-13T10:00:00Z" }

/-- Concrete two-entry store for the C10 witness. -/
def c10Store : JobStore := fun k =>
  if k = "job-1" then some c10Job
  else if k = "job-2" then
    some { id := "job-2", userSession := "session-b", filename := "more.csv",
           totalUrls := 5, processedUrls := 5, status := JobStatus.completed,
           createdAt := "2025-08-13T09:00:00Z" }
  else none

/-- Concrete partial update for the C10 witness: only the status field is
supplied. -/
def c10Update : BulkJobUpdate := { status := some JobStatus.completed }

/-- Claim C10 witness: the theorem applied to a concrete two-job store
and the update that marks job-1 completed, discharging the present-id
hypothesis and the per-field side conditions. -/
theorem c10_updateBulkJob_frame_witness :
    ((updateBulkJob c10Store "job-1" c10Update).1 = some (applyUpdate c10Job c10Update))
      ∧ (applyUpdate c10Job c10Update).status = JobStatus.completed
      ∧ (applyUpdate c10Job c10Update).processedUrls = c10Job.processedUrls
      ∧ (updateBulkJob c10Store "job-1" c10Update).2 "job-2" = c10Store "job-2" := by
  have h := (c10_updateBulkJob_frame c10Store "job-1" c10Update).2 c10Job (by
    simp [c10Store])
  obtain ⟨hA, hB, hC, hs1, hs2, hp1, hp2, hc1, hc2, hr1, hr2, hid, hus, hfn, htu, hca⟩ := h
  exact ⟨hA, hs1 JobStatus.completed rfl, hp2 rfl, hC "job-2" (by decide)⟩

/-- Models the JavaScript pattern x || fallback for an optional string
attribute (used by the preview extraction in performSeoAnalysis,
bulk-processor lines 217-251): an absent or empty value gives the
fallback. -/
def jsOr (o : Option String) (fallback : String) : String :=
  match o with
  | some v => if v = "" then fallback else v
  | none => fallback

/-- The part of the SeoAnalysisResult built by performSeoAnalysis
(bulk-processor lines 199-255) that the bulk runner consumes: the scoring
triple plus the facebook and twitter preview fields read by processUrl.
The google and linkedin previews and the domain fields feed only the
single-URL HTTP response and are not consumed by any claim. -/
structure SeoAnalysisResult where
  url : String
  score : Int
  tags : List SeoTag
  breakdown : List SeoScoreBreakdown
  fbTitle : String
  fbDescription : String
  fbImage : String
  twTitle : String
  twDescription : String
  twCard : String
deriving DecidableEq, Repr

/-- performSeoAnalysis (bulk-processor lines 199-255) on an already
fetched page: runs analyzeSeoTags and assembles the preview fields; the
returned url field is the original targetUrl argument, not the
https-normalized fetch URL. -/
def performSeoAnalysis (sanitize : String → String) (targetUrl : String)
    (page : PageInput) : SeoAnalysisResult :=
  let a := analyzeSeoTags sanitize page
  let title := jsTrim page.title
  let description := optContent page.description
  { url := targetUrl
    score := a.score
    tags := a.tags
    breakdown := a.breakdown
    fbTitle := sanitize (jsOr page.ogTitle title)
    fbDescription := sanitize (jsOr page.ogDescription description)
    fbImage := jsOr page.ogImage ""
    twTitle := sanitize (jsOr page.twitterTitle title)
    twDescription := sanitize (jsOr page.twitterDescription description)
    twCard := jsOr page.twitterCard "summary" }

/-- One flat CSV-ready result row (shared schema,
bulkAnalysisResultSchema). The scoreBreakdown and breakdownSummary fields
are read by generateResultsCSV but are absent from the schema and from
every object the bulk pipeline constructs; they are modelled as options
defaulting to none, representing the JavaScript undefined. -/
structure BulkAnalysisResult where
  url : String
  seoScore : Int
  titleTag : String
  titleLength : Nat
  metaDescription : String
  metaDescriptionLength : Nat
  h1Tag : String
  ogTitle : String
  ogDescription : String
  ogImage : String
  twitterTitle : String
  twitterDescription : String
  twitterCard : String
  robotsTag : String
  canonicalUrl : String
  analysisDate : String
  scoreBreakdown : Option (List SeoScoreBreakdown) := none
  breakdownSummary : Option String := none
  errorMessage : Option String := none
deriving DecidableEq, Repr

/-- A stored per-URL result (shared schema, bulkUrlResultSchema); the
generated id and processedAt timestamp assigned by the store are not
relevant to any claim and are omitted. -/
structure BulkUrlResult where
  jobId : String
  url : String
  analysisResult : Option SeoAnalysisResult := none
  errorMessage : Option String := none
deriving DecidableEq, Repr

/-- extractTagContent (bulk-processor lines 263-266): content of the
first tag with the given name, empty string when absent. -/
def extractTagContent (tags : List SeoTag) (tagName : String) : String :=
  match tags.find? (fun t => t.tag == tagName) with
  | some t => t.content
  | none => ""

/-- processUrl (bulk-processor lines 141-192). The fetch and the timeout
race are modelled by the outcome argument: ok carries the fetched page,
error carries the failure message (network error or the
URL analysis timeout message). Returns the BulkUrlResult persisted via
createBulkUrlResult together with the settled promise value: the CSV row
on success, or the rethrown message on failure. -/
def processUrl (sanitize : String → String) (jobId url date : String)
    (outcome : Except String PageInput) :
    BulkUrlResult × Except String BulkAnalysisResult :=
  match outcome with
  | .ok page =>
    let analysis := performSeoAnalysis sanitize url page
    ({ jobId := jobId, url := url, analysisResult := some analysis },
     .ok { url := analysis.url
           seoScore := analysis.score
           titleTag := extractTagContent analysis.tags "Title"
           titleLength := (extractTagContent analysis.tags "Title").length
           metaDescription := extractTagContent analysis.tags "Meta Description"
           metaDescriptionLength := (extractTagContent analysis.tags "Meta Description").length
           h1Tag := extractTagContent analysis.tags "H1"
           ogTitle := analysis.fbTitle
           ogDescription := analysis.fbDescription
           ogImage := analysis.fbImage
           twitterTitle := analysis.twTitle
           twitterDescription := analysis.twDescription
           twitterCard := analysis.twCard
           robotsTag := extractTagContent analysis.tags "Robots"
           canonicalUrl := extractTagContent analysis.tags "Canonical"
           analysisDate := date })
  | .error msg =>
    ({ jobId := jobId, url := url, errorMessage := some msg },
     .error ("Failed to analyze " ++ url ++ ": " ++ msg))

/-- The per-slot handling of a settled batch promise in processJob
(bulk-processor lines 63-91): a fulfilled promise contributes its value,
a rejected one contributes the placeholder row with empty analysis
fields, score 0 and the rejection message (with the Analysis failed
fallback of the source expression reason.message or Analysis failed). -/
def settleRow (date url : String) (r : Except String BulkAnalysisResult) :
    BulkAnalysisResult :=
  match r with
  | .ok v => v
  | .error msg =>
    { url := url, seoScore := 0, titleTag := "", titleLength := 0,
      metaDescription := "", metaDescriptionLength := 0, h1Tag := "",
      ogTitle := "", ogDescription := "", ogImage := "", twitterTitle := "",
      twitterDescription := "", twitterCard := "", robotsTag := "",
      canonicalUrl := "", analysisDate := date,
      errorMessage := some (if msg = "" then "Analysis failed" else msg) }

/-- The batch slicing of processJob (bulk-processor lines 57-58): fixed
slices of batchSize = maxConcurrentUrls = 10 in input order. -/
def chunks10 {α : Type} (l : List α) : List (List α) :=
  match l with
  | [] => []
  | x :: xs => ((x :: xs).take 10) :: chunks10 ((x :: xs).drop 10)
termination_by l.length
decreasing_by simp; omega

/-- The results assembly of processJob (bulk-processor lines 53-105):
batches of 10 are launched with Promise.allSettled, which settles
positionally in batch order regardless of completion order, and each slot
is appended in that order (success value or placeholder row). The
per-URL outcome is a function of the URL, so the settlement order does
not appear in the model. -/
def processBatches (sanitize : String → String) (jobId date : String)
    (outcome : String → Except String PageInput) (urls : List String) :
    List BulkAnalysisResult :=
  (chunks10 urls).flatMap
    (fun batch => batch.map
      (fun url => settleRow date url (processUrl sanitize jobId url date (outcome url)).2))

/-- The per-URL results persisted through createBulkUrlResult during a
run of processJob (every URL settles, so every URL stores one record). -/
def storedResults (sanitize : String → String) (jobId date : String)
    (outcome : String → Except String PageInput) (urls : List String) :
    List BulkUrlResult :=
  urls.map (fun url => (processUrl sanitize jobId url date (outcome url)).1)

theorem chunks10_flatMap {α β : Type} (f : α → List β) :
    ∀ l : List α, (chunks10 l).flatMap (fun batch => batch.flatMap f) = l.flatMap f := by
  intro l
  induction l using chunks10.induct with
  | case1 => simp [chunks10]
  | case2 x xs ih =>
    rw [chunks10]
    simp only [List.flatMap_cons]
    rw [ih, ← List.flatMap_append, List.take_append_drop]
    simp [List.flatMap_cons]

theorem processBatches_eq_map (sanitize : String → String) (jobId date : String)
    (outcome : String → Except String PageInput) (urls : List String) :
    processBatches sanitize jobId date outcome urls
      = urls.map
          (fun url => settleRow date url (processUrl sanitize jobId url date (outcome url)).2) := by
  unfold processBatches
  simp only [List.map_eq_flatMap]
  exact chunks10_flatMap _ urls

/-- The fixed 19-column header of generateResultsCSV (csv-processor
lines 257-277). -/
def csvColumns : List String :=
  ["URL", "SEO_Score", "Title_Tag", "Title_Length", "Meta_Description",
   "Meta_Description_Length", "H1_Tag", "OG_Title", "OG_Description", "OG_Image",
   "Twitter_Title", "Twitter_Description", "Twitter_Card", "Robots_Tag",
   "Canonical_URL", "Analysis_Date", "Score_Breakdown_Summary", "Breakdown_Details",
   "Error_Message"]

/-- JSON string encoding with the two escapes every breakdown string in
this code base can need (quote and backslash); control-character escaping
of JSON.stringify is not modelled since no claim depends on it. -/
def jsonStr (s : String) : String :=
  "\"" ++ String.mk (s.data.flatMap (fun c =>
    if c = '\"' then ['\\', '\"'] else if c = '\\' then ['\\', '\\'] else [c])) ++ "\""

/-- JSON.stringify of one breakdown entry object. -/
def breakdownEntryJson (b : SeoScoreBreakdown) : String :=
  "\x7b\"tag\":" ++ jsonStr b.tag ++ ",\"issue\":" ++ jsonStr b.issue
    ++ ",\"deduction\":" ++ toString b.deduction ++ "\x7d"

/-- JSON.stringify of a breakdown list; the empty list encodes as a
two-character bracket pair. -/
def jsonBreakdown (l : List SeoScoreBreakdown) : String :=
  "[" ++ String.intercalate "," (l.map breakdownEntryJson) ++ "]"

/-- The cell list of one data row written by generateResultsCSV
(csv-processor lines 279-299). The summary cell reads the
breakdownSummary property (undefined in every pipeline row, rendered as
an empty cell by the CSV codec); the details cell is the source
conditional scoreBreakdown then JSON.stringify else empty string, where
the JavaScript truthiness test is false only for the absent property (an
empty array is truthy). -/
def rowCells (r : BulkAnalysisResult) : List String :=
  [r.url, toString r.seoScore, r.titleTag, toString r.titleLength,
   r.metaDescription, toString r.metaDescriptionLength, r.h1Tag, r.ogTitle,
   r.ogDescription, r.ogImage, r.twitterTitle, r.twitterDescription,
   r.twitterCard, r.robotsTag, r.canonicalUrl, r.analysisDate,
   r.breakdownSummary.getD "",
   (match r.scoreBreakdown with
    | some l => jsonBreakdown l
    | none => ""),
   r.errorMessage.getD ""]

/-- generateResultsCSV (csv-processor lines 255-315) at the row level:
the header row followed by one cell row per result, in result order (the
csv-stringify codec that quotes cells and joins lines is the external
black-box row writer of the spec). -/
def generateResultsCSV (results : List BulkAnalysisResult) : List (List String) :=
  csvColumns :: results.map rowCells

theorem settleRow_url (sanitize : String → String) (jobId url date : String)
    (o : Except String PageInput) :
    (settleRow date url (processUrl sanitize jobId url date o).2).url = url := by
  cases o <;> rfl

/-- Claim C3: for every completed job the output CSV of the bulk pipeline
has exactly one header row plus one data row per input URL (totalUrls + 1
rows), and the data rows appear in exactly the input URL order (each data
row's URL cell is the corresponding input URL), independently of
completion order: Promise.allSettled settles positionally, which the
outcome-indexed model reflects. -/
theorem c3_output_rows (sanitize : String → String) (jobId date : String)
    (outcome : String → Except String PageInput) (urls : List String) :
    (generateResultsCSV (processBatches sanitize jobId date outcome urls)).length
        = urls.length + 1
      ∧ ((generateResultsCSV (processBatches sanitize jobId date outcome urls)).tail).map
            (fun cells => cells.head?.getD "")
          = urls := by
  constructor
  · rw [processBatches_eq_map]
    simp [generateResultsCSV]
  · rw [processBatches_eq_map]
    simp only [generateResultsCSV, List.tail_cons, List.map_map]
    have hrow : ∀ url : String,
        ((rowCells (settleRow date url
            (processUrl sanitize jobId url date (outcome url)).2)).head?.getD "") = url := by
      intro url
      simp [rowCells, settleRow_url]
    have h2 := List.map_congr_left (l := urls)
      (f := fun url => ((rowCells (settleRow date url
        (processUrl sanitize jobId url date (outcome url)).2)).head?.getD ""))
      (g := id) (fun a _ => hrow a)
    simpa using h2

/-- Claim C5 evidence (code bug): every row the bulk pipeline hands to
the Result CSV Writer carries neither a breakdownSummary nor a
scoreBreakdown (processUrl and the placeholder constructor never set
them, and the schema lacks the fields), so the Score_Breakdown_Summary
cell (index 16) and the Breakdown_Details cell (index 17) of every
written data row are blank, never the no-issues sentinel or a JSON
list. -/
theorem c5_breakdown_cells_blank (sanitize : String → String) (jobId date : String)
    (outcome : String → Except String PageInput) (urls : List String) :
    ∀ row ∈ processBatches sanitize jobId date outcome urls,
      row.breakdownSummary = none ∧ row.scoreBreakdown = none
        ∧ (rowCells row)[16]? = some "" ∧ (rowCells row)[17]? = some "" := by
  intro row hrow
  rw [processBatches_eq_map] at hrow
  rw [List.mem_map] at hrow
  obtain ⟨url, _, rfl⟩ := hrow
  cases ho : outcome url <;> simp [processUrl, settleRow, rowCells]

/-- Claim C5 witness: the theorem applied to a one-URL job whose analysis
succeeds (on the all-empty page, whose breakdown is even non-empty),
discharging the row-membership hypothesis: both breakdown cells of the
produced row are blank. -/
theorem c5_breakdown_cells_blank_witness :
    ((rowCells (settleRow "2025-08-13T10:05:00Z" "https://example.com"
        (processUrl id "job-1" "https://example.com" "2025-08-13T10:05:00Z"
          (Except.ok emptyPage)).2))[16]? = some "")
      ∧ ((rowCells (settleRow "2025-08-13T10:05:00Z" "https://example.com"
          (processUrl id "job-1" "https://example.com" "2025-08-13T10:05:00Z"
            (Except.ok emptyPage)).2))[17]? = some "") := by
  have h := c5_breakdown_cells_blank id "job-1" "2025-08-13T10:05:00Z"
    (fun _ => Except.ok emptyPage) ["https://example.com"]
    (settleRow "2025-08-13T10:05:00Z" "https://example.com"
      (processUrl id "job-1" "https://example.com" "2025-08-13T10:05:00Z"
        (Except.ok emptyPage)).2)
    (by rw [processBatches_eq_map]
        exact List.mem_map_of_mem _ (by simp))
  exact ⟨h.2.2.1, h.2.2.2⟩

/-- The job-record mutations issued around one job: the four
updateBulkJob payloads of processJob (bulk-processor lines 42-45, 95-97,
112-116, 124-127) and the cancellation update of the DELETE route
(routes.ts lines 1140-1142). -/
inductive JobEv
  | claim
  | progress (k : Nat)
  | complete (completedAt resultFilePath : String)
  | fail (completedAt : String)
  | cancel
deriving DecidableEq, Repr

/-- Effect of one mutation on the stored job, through the applyUpdate
merge of updateBulkJob; cancel applies its update only to a pending or
processing job (routes.ts line 1140). -/
def applyEv (job : BulkAnalysisJob) : JobEv → BulkAnalysisJob
  | .claim => applyUpdate job { status := some .processing, processedUrls := some 0 }
  | .progress k => applyUpdate job { processedUrls := some k }
  | .complete c r =>
      applyUpdate job { status := some .completed, completedAt := some c,
                        resultFilePath := some r }
  | .fail c => applyUpdate job { status := some .failed, completedAt := some c }
  | .cancel =>
      if job.status = .pending ∨ job.status = .processing then
        applyUpdate job { status := some .failed }
      else job

/-- The job as created on upload (routes.ts lines 976-982 plus
createBulkJob in storage.ts): status pending, processed count 0. -/
def initJob (jobId sess filename : String) (n : Nat) (createdAt : String) :
    BulkAnalysisJob :=
  { id := jobId, userSession := sess, filename := filename, totalUrls := n,
    processedUrls := 0, status := .pending, createdAt := createdAt }

/-- The cumulative progress updates issued by a run that settles k URLs
(bulk-processor line 94: processedCount = i + j + 1). -/
def progressEvents (k : Nat) : List JobEv :=
  (List.range k).map (fun i => JobEv.progress (i + 1))

/-- The storage-mutation trace of one processJob run that settles k URLs
and then ends with the given terminal event (complete on success, fail
when an exception escapes). -/
def runnerEvents (k : Nat) (term : JobEv) : List JobEv :=
  JobEv.claim :: (progressEvents k ++ [term])

theorem applyEv_claim (s : BulkAnalysisJob) :
    applyEv s .claim = { s with status := .processing, processedUrls := 0 } := rfl

theorem applyEv_progress (s : BulkAnalysisJob) (k : Nat) :
    applyEv s (.progress k) = { s with processedUrls := k } := rfl

theorem applyEv_complete (s : BulkAnalysisJob) (c r : String) :
    applyEv s (.complete c r)
      = { s with status := .completed, completedAt := some c,
                 resultFilePath := some r } := rfl

theorem applyEv_fail (s : BulkAnalysisJob) (c : String) :
    applyEv s (.fail c) = { s with status := .failed, completedAt := some c } := rfl

theorem applyEv_cancel (s : BulkAnalysisJob) :
    applyEv s .cancel
      = if s.status = .pending ∨ s.status = .processing then
          { s with status := .failed }
        else s := rfl

theorem foldl_progressEvents (s : BulkAnalysisJob) (k : Nat) :
    (progressEvents k).foldl applyEv s
      = if k = 0 then s else { s with processedUrls := k } := by
  induction k with
  | zero => rfl
  | succ k ih =>
    rw [progressEvents, List.range_succ, List.map_append, List.foldl_append]
    rw [show ((List.range k).map (fun i => JobEv.progress (i + 1))) = progressEvents k from rfl]
    rw [ih]
    by_cases hk : k = 0 <;> simp [hk, applyEv_progress]

/-- Final job state of a successful run over n URLs: Completed with the
processed count equal to the total. -/
theorem runner_final_completed (jobId sess fn ca c r : String) (n : Nat) :
    ((runnerEvents n (JobEv.complete c r)).foldl applyEv (initJob jobId sess fn n ca)).status
        = JobStatus.completed
      ∧ ((runnerEvents n (JobEv.complete c r)).foldl applyEv
            (initJob jobId sess fn n ca)).processedUrls = n := by
  unfold runnerEvents
  rw [List.foldl_cons, List.foldl_append, applyEv_claim, foldl_progressEvents]
  by_cases hn : n = 0 <;> simp [hn, List.foldl_cons, applyEv_complete, initJob]

/-- Claim C4: a per-URL failure (network error, timeout, parse error)
never aborts its batch or job. The failure variant UrlResult with the
error message is persisted under the job id; the runner turns the
rejection into a placeholder row with all analysis fields empty, score 0
and a non-empty error message; every input URL still yields exactly one
output row; and the runner trace still ends with the job Completed at
full processed count. -/
theorem c4_per_url_failure (sanitize : String → String)
    (jobId sess fn ca date c r : String)
    (outcome : String → Except String PageInput) (urls : List String)
    (url msg : String) (hmem : url ∈ urls) (hfail : outcome url = Except.error msg) :
    ({ jobId := jobId, url := url, analysisResult := none, errorMessage := some msg }
        : BulkUrlResult) ∈ storedResults sanitize jobId date outcome urls
      ∧ (∃ row ∈ processBatches sanitize jobId date outcome urls,
          row.url = url ∧ row.seoScore = 0 ∧ row.titleTag = "" ∧ row.titleLength = 0
            ∧ row.metaDescription = "" ∧ row.metaDescriptionLength = 0 ∧ row.h1Tag = ""
            ∧ row.ogTitle = "" ∧ row.ogDescription = "" ∧ row.ogImage = ""
            ∧ row.twitterTitle = "" ∧ row.twitterDescription = "" ∧ row.twitterCard = ""
            ∧ row.robotsTag = "" ∧ row.canonicalUrl = ""
            ∧ ∃ e, row.errorMessage = some e ∧ e ≠ "")
      ∧ (processBatches sanitize jobId date outcome urls).length = urls.length
      ∧ ((runnerEvents urls.length (JobEv.complete c r)).foldl applyEv
            (initJob jobId sess fn urls.length ca)).status = JobStatus.completed
      ∧ ((runnerEvents urls.length (JobEv.complete c r)).foldl applyEv
            (initJob jobId sess fn urls.length ca)).processedUrls = urls.length := by
  refine ⟨?_, ?_, ?_, (runner_final_completed jobId sess fn ca c r urls.length).1,
    (runner_final_completed jobId sess fn ca c r urls.length).2⟩
  · unfold storedResults
    rw [List.mem_map]
    exact ⟨url, hmem, by rw [hfail]; rfl⟩
  · refine ⟨settleRow date url (processUrl sanitize jobId url date (outcome url)).2, ?_, ?_⟩
    · rw [processBatches_eq_map]
      exact List.mem_map_of_mem _ hmem
    · rw [hfail]
      by_cases hmsg : ("Failed to analyze " ++ url ++ ": " ++ msg) = ""
      · exact ⟨by simp [processUrl, settleRow], by simp [processUrl, settleRow],
          by simp [processUrl, settleRow], by simp [processUrl, settleRow],
          by simp [processUrl, settleRow], by simp [processUrl, settleRow],
          by simp [processUrl, settleRow], by simp [processUrl, settleRow],
          by simp [processUrl, settleRow], by simp [processUrl, settleRow],
          by simp [processUrl, settleRow], by simp [processUrl, settleRow],
          by simp [processUrl, settleRow], by simp [processUrl, settleRow],
          by simp [processUrl, settleRow],
          "Analysis failed", by simp [processUrl, settleRow, hmsg], by decide⟩
      · exact ⟨by simp [processUrl, settleRow], by simp [processUrl, settleRow],
          by simp [processUrl, settleRow], by simp [processUrl, settleRow],
          by simp [processUrl, settleRow], by simp [processUrl, settleRow],
          by simp [processUrl, settleRow], by simp [processUrl, settleRow],
          by simp [processUrl, settleRow], by simp [processUrl, settleRow],
          by simp [processUrl, settleRow], by simp [processUrl, settleRow],
          by simp [processUrl, settleRow], by simp [processUrl, settleRow],
          by simp [processUrl, settleRow],
          "Failed to analyze " ++ url ++ ": " ++ msg,
          by simp [processUrl, settleRow, hmsg], hmsg⟩
  · rw [processBatches_eq_map]
    simp

/-- Concrete three-URL batch for the C4 witness. -/
def urls3 : List String := ["https://a.com", "https://b.com", "https://c.com"]

/-- Concrete outcome for the C4 witness: the middle URL times out, the
others fetch the all-empty page. -/
def outcome3 : String → Except String PageInput := fun u =>
  if u = "https://b.com" then Except.error "URL analysis timeout" else Except.ok emptyPage

/-- Claim C4 witness: the theorem applied to the three-URL batch whose
middle URL times out, discharging the membership and failure hypotheses:
the failure record is stored, the output still has 3 rows, and the run
ends Completed with processed count 3. -/
theorem c4_per_url_failure_witness :
    ({ jobId := "job-1", url := "https://b.com", analysisResult := none,
        errorMessage := some "URL analysis timeout" } : BulkUrlResult)
        ∈ storedResults id "job-1" "2025-08-13T10:05:00Z" outcome3 urls3
      ∧ (processBatches id "job-1" "2025-08-13T10:05:00Z" outcome3 urls3).length = urls3.length
      ∧ ((runnerEvents urls3.length
            (JobEv.complete "2025-08-13T10:05:00Z" "results/job-1_results.csv")).foldl applyEv
            (initJob "job-1" "session-a" "urls.csv" urls3.length "2025-08-13T10:00:00Z")).status
          = JobStatus.completed := by
  have h := c4_per_url_failure id "job-1" "session-a" "urls.csv" "2025-08-13T10:00:00Z"
    "2025-08-13T10:05:00Z" "2025-08-13T10:05:00Z" "results/job-1_results.csv"
    outcome3 urls3 "https://b.com" "URL analysis timeout"
    (by simp [urls3]) (by simp [outcome3])
  exact ⟨h.1, h.2.2.1, h.2.2.2.1⟩

/-- Observable behaviour of one processJob call (bulk-processor lines
26-133): the guard on the active-processing set, the storage mutations,
the number of generateResultsCSV output writes, the number of
job-progress emissions, and the active set after the finally block. The
k settled URLs and the ok flag describe how far the run got; on success
the terminal event is complete, otherwise fail. -/
structure ProcessJobRun where
  storageEvents : List JobEv
  outputWrites : Nat
  progressEmits : Nat
  activeAfter : Finset String
deriving DecidableEq

/-- processJob (bulk-processor lines 26-133): an id already in the
processing set returns immediately with no effect; otherwise the id is
added, the run executes, and the finally block removes the id whatever
the outcome. -/
def processJobModel (active : Finset String) (jobId : String) (k : Nat)
    (ok : Bool) (c r : String) : ProcessJobRun :=
  if jobId ∈ active then
    { storageEvents := [], outputWrites := 0, progressEmits := 0, activeAfter := active }
  else
    { storageEvents := runnerEvents k (if ok then JobEv.complete c r else JobEv.fail c),
      outputWrites := if ok then 1 else 0,
      progressEmits := k,
      activeAfter := (insert jobId active).erase jobId }

/-- Claim C7: calling processJob while the job id is in the
active-processing set is a no-op (no storage updates, no progress
emissions, no output writes, active set untouched); and for a run that
does execute, the job id is removed from the active set on completion
whether the run succeeds or fails. -/
theorem c7_processJob_guard (active : Finset String) (jobId : String) (k : Nat)
    (ok : Bool) (c r : String) :
    (jobId ∈ active →
        (processJobModel active jobId k ok c r).storageEvents = []
          ∧ (processJobModel active jobId k ok c r).outputWrites = 0
          ∧ (processJobModel active jobId k ok c r).progressEmits = 0
          ∧ (processJobModel active jobId k ok c r).activeAfter = active)
      ∧ (jobId ∉ active →
          (processJobModel active jobId k ok c r).activeAfter = active) := by
  constructor
  · intro h
    simp [processJobModel, h]
  · intro h
    simp [processJobModel, h, Finset.erase_insert h]

/-- Claim C7 witness: both branches at concrete active sets, for a
successful and for a failed run. -/
theorem c7_processJob_guard_witness :
    (processJobModel {"job-1"} "job-1" 2 true "t" "p").storageEvents = []
      ∧ (processJobModel {"job-1"} "job-1" 2 true "t" "p").outputWrites = 0
      ∧ (processJobModel ({"job-2"} : Finset String) "job-1" 2 true "t" "p").activeAfter
          = {"job-2"}
      ∧ (processJobModel ({"job-2"} : Finset String) "job-1" 2 false "t" "p").activeAfter
          = {"job-2"} := by
  have h1 := (c7_processJob_guard {"job-1"} "job-1" 2 true "t" "p").1 (by decide)
  have h2 := (c7_processJob_guard {"job-2"} "job-1" 2 true "t" "p").2 (by decide)
  have h3 := (c7_processJob_guard {"job-2"} "job-1" 2 false "t" "p").2 (by decide)
  exact ⟨h1.1, h1.2.1, h2, h3⟩

/-- The status-transition relation asserted by the claim: a step either
leaves the status unchanged or follows one of the edges
Pending to Processing, Processing to Completed, Processing to Failed. -/
def specStep (a b : JobStatus) : Prop :=
  a = b ∨ (a = .pending ∧ b = .processing) ∨ (a = .processing ∧ b = .completed)
    ∨ (a = .processing ∧ b = .failed)

instance (a b : JobStatus) : Decidable (specStep a b) := by
  unfold specStep
  infer_instance

/-- The transition relation the code actually guarantees: the claimed
edges, plus Pending to Failed (external cancel of a not-yet-claimed job)
and Failed to Processing / Failed to Completed (a runner still in flight
overwriting an external cancellation). -/
def amendedStep (a b : JobStatus) : Prop :=
  specStep a b ∨ (a = .pending ∧ b = .failed) ∨ (a = .failed ∧ b = .processing)
    ∨ (a = .failed ∧ b = .completed)

instance (a b : JobStatus) : Decidable (amendedStep a b) := by
  unfold amendedStep
  infer_instance

/-- Event-interleaving of two sequences, preserving the order of each:
the scheduling freedom between the single runner of a job and external
delete/cancel requests. -/
inductive Interleave {α : Type} : List α → List α → List α → Prop
  | nil : Interleave [] [] []
  | left {x : α} {xs ys zs : List α} :
      Interleave xs ys zs → Interleave (x :: xs) ys (x :: zs)
  | right {y : α} {xs ys zs : List α} :
      Interleave xs ys zs → Interleave xs (y :: ys) (y :: zs)

/-- Shape of the part of a runner trace that follows the claim event:
progress updates bounded by the URL count, ending in at most one
terminal (complete or fail) event. -/
inductive RunnerTail (n : Nat) : List JobEv → Prop
  | done : RunnerTail n []
  | completeLast (c r : String) : RunnerTail n [JobEv.complete c r]
  | failLast (c : String) : RunnerTail n [JobEv.fail c]
  | step (k : Nat) (rest : List JobEv) : k ≤ n → RunnerTail n rest →
      RunnerTail n (JobEv.progress k :: rest)

/-- Invariant tying the remaining runner events to the current status:
before the claim event the job is pending (or failed by an early
cancel); after it, processing (or failed by a cancel) until the runner
finishes. -/
def PhaseOk (n : Nat) (run : List JobEv) (s : BulkAnalysisJob) : Prop :=
  (∃ rest, run = JobEv.claim :: rest ∧ RunnerTail n rest
      ∧ (s.status = .pending ∨ s.status = .failed))
    ∨ (RunnerTail n run ∧ (run ≠ [] → s.status = .processing ∨ s.status = .failed))

theorem scanl_head {α β : Type} (f : β → α → β) (b : β) (l : List α) :
    (List.scanl f b l).head? = some b := by
  cases l <;> simp

theorem chain'_scanl_cons {α β : Type} (R : β → β → Prop) (f : β → α → β)
    (b : β) (a : α) (l : List α) :
    List.Chain' R (List.scanl f b (a :: l))
      ↔ R b (f b a) ∧ List.Chain' R (List.scanl f (f b a) l) := by
  rw [List.scanl_cons, List.singleton_append, List.chain'_cons', scanl_head]
  simp [and_comm]

theorem forall_scanl_cons {α β : Type} (P : β → Prop) (f : β → α → β)
    (b : β) (a : α) (l : List α) :
    (∀ x ∈ List.scanl f b (a :: l), P x)
      ↔ P b ∧ (∀ x ∈ List.scanl f (f b a) l, P x) := by
  rw [List.scanl_cons]
  simp

theorem applyEv_cancel_processed (s : BulkAnalysisJob) :
    (applyEv s .cancel).processedUrls = s.processedUrls := by
  rw [applyEv_cancel]
  split <;> rfl

theorem applyEv_cancel_total (s : BulkAnalysisJob) :
    (applyEv s .cancel).totalUrls = s.totalUrls := by
  rw [applyEv_cancel]
  split <;> rfl

theorem applyEv_cancel_amended (s : BulkAnalysisJob) :
    amendedStep s.status (applyEv s .cancel).status := by
  rw [applyEv_cancel]
  rcases hs : s.status with h | h | h | h <;> simp [hs] <;> decide

theorem applyEv_cancel_status_kept (s : BulkAnalysisJob)
    (h : s.status = .processing ∨ s.status = .failed) :
    (applyEv s .cancel).status = .processing ∨ (applyEv s .cancel).status = .failed := by
  rw [applyEv_cancel]
  rcases h with h | h <;> simp [h]

theorem applyEv_cancel_pf (s : BulkAnalysisJob)
    (h : s.status = .pending ∨ s.status = .failed) :
    (applyEv s .cancel).status = .pending ∨ (applyEv s .cancel).status = .failed := by
  rw [applyEv_cancel]
  rcases h with h | h <;> simp [h]

/-- Core invariant: along any interleaving of one runner trace with
external cancel events, the processed count never exceeds the total, and
every consecutive status pair satisfies the amended transition
relation. -/
theorem interleave_invariant (n : Nat) :
    ∀ {run cancels zs : List JobEv} (s : BulkAnalysisJob),
      Interleave run cancels zs →
      (∀ e ∈ cancels, e = JobEv.cancel) →
      PhaseOk n run s →
      s.processedUrls ≤ n → s.totalUrls = n →
      (∀ x ∈ List.scanl applyEv s zs, x.processedUrls ≤ x.totalUrls)
        ∧ List.Chain' (fun a b => amendedStep a.status b.status)
            (List.scanl applyEv s zs) := by
  intro run cancels zs s hI
  induction hI generalizing s with
  | nil =>
    intro _ _ hp ht
    constructor
    · intro x hx
      simp only [List.scanl_nil, List.mem_singleton] at hx
      subst hx
      omega
    · simp
  | @left x xs ys zs hsub ih =>
    intro honly hphase hp ht
    rcases hphase with ⟨rest, heq, hrt, hst⟩ | ⟨hrt, hst⟩
    · -- the next runner event is the claim
      have hx : x = JobEv.claim := by
        injection heq with h1 _
      have hxs : xs = rest := by
        injection heq with _ h2
      subst hx
      subst hxs
      have hIH := ih (applyEv s JobEv.claim) honly
        (Or.inr ⟨hrt, fun _ => Or.inl (by rw [applyEv_claim])⟩)
        (by rw [applyEv_claim]; simp)
        (by rw [applyEv_claim]; simpa using ht)
      constructor
      · rw [forall_scanl_cons]
        exact ⟨by omega, hIH.1⟩
      · rw [chain'_scanl_cons]
        refine ⟨?_, hIH.2⟩
        rw [applyEv_claim]
        rcases hst with h | h <;> simp [h] <;> decide
    · -- a runner event past the claim: progress or a terminal
      cases hrt with
      | step k rest2 hk hrt2 =>
        have hstat := hst (by simp)
        have hIH := ih (applyEv s (JobEv.progress k)) honly
          (Or.inr ⟨hrt2, fun _ => by rw [applyEv_progress]; simpa using hstat⟩)
          (by rw [applyEv_progress]; simpa using hk)
          (by rw [applyEv_progress]; simpa using ht)
        constructor
        · rw [forall_scanl_cons]
          exact ⟨by omega, hIH.1⟩
        · rw [chain'_scanl_cons]
          refine ⟨?_, hIH.2⟩
          rw [applyEv_progress]
          exact Or.inl (Or.inl rfl)
      | completeLast c r =>
        have hstat := hst (by simp)
        have hIH := ih (applyEv s (JobEv.complete c r)) honly
          (Or.inr ⟨RunnerTail.done, fun hne => absurd rfl hne⟩)
          (by rw [applyEv_complete]; simpa using hp)
          (by rw [applyEv_complete]; simpa using ht)
        constructor
        · rw [forall_scanl_cons]
          exact ⟨by omega, hIH.1⟩
        · rw [chain'_scanl_cons]
          refine ⟨?_, hIH.2⟩
          rw [applyEv_complete]
          rcases hstat with h | h <;> simp [h] <;> decide
      | failLast c =>
        have hstat := hst (by simp)
        have hIH := ih (applyEv s (JobEv.fail c)) honly
          (Or.inr ⟨RunnerTail.done, fun hne => absurd rfl hne⟩)
          (by rw [applyEv_fail]; simpa using hp)
          (by rw [applyEv_fail]; simpa using ht)
        constructor
        · rw [forall_scanl_cons]
          exact ⟨by omega, hIH.1⟩
        · rw [chain'_scanl_cons]
          refine ⟨?_, hIH.2⟩
          rw [applyEv_fail]
          rcases hstat with h | h <;> simp [h] <;> decide
  | @right y xs ys zs hsub ih =>
    intro honly hphase hp ht
    have hy : y = JobEv.cancel := honly y (List.mem_cons_self y ys)
    subst hy
    have honly2 : ∀ e ∈ ys, e = JobEv.cancel :=
      fun e he => honly e (List.mem_cons_of_mem _ he)
    have hphase2 : PhaseOk n xs (applyEv s JobEv.cancel) := by
      rcases hphase with ⟨rest, heq, hrt, hst⟩ | ⟨hrt, hst⟩
      · exact Or.inl ⟨rest, heq, hrt, applyEv_cancel_pf s hst⟩
      · exact Or.inr ⟨hrt, fun hne => applyEv_cancel_status_kept s (hst hne)⟩
    have hIH := ih (applyEv s JobEv.cancel) honly2 hphase2
      (by rw [applyEv_cancel_processed]; exact hp)
      (by rw [applyEv_cancel_total]; exact ht)
    constructor
    · rw [forall_scanl_cons]
      exact ⟨by omega, hIH.1⟩
    · rw [chain'_scanl_cons]
      exact ⟨applyEv_cancel_amended s, hIH.2⟩

theorem progressEvents_eq (k : Nat) :
    progressEvents k = ((List.range k).map (fun i => i + 1)).map JobEv.progress := by
  rw [List.map_map]
  rfl

theorem runnerTail_append (n : Nat) (term : JobEv)
    (hterm : (∃ c r, term = JobEv.complete c r) ∨ ∃ c, term = JobEv.fail c) :
    ∀ ks : List Nat, (∀ a ∈ ks, a ≤ n) →
      RunnerTail n ((ks.map JobEv.progress) ++ [term]) := by
  intro ks
  induction ks with
  | nil =>
    intro _
    rcases hterm with ⟨c, r, rfl⟩ | ⟨c, rfl⟩
    · exact RunnerTail.completeLast c r
    · exact RunnerTail.failLast c
  | cons a ks ih =>
    intro hb
    exact RunnerTail.step a _ (hb a (by simp)) (ih (fun x hx => hb x (by simp [hx])))

theorem interleave_nil_right {α : Type} {xs zs : List α}
    (h : Interleave xs [] zs) : zs = xs := by
  generalize hm : ([] : List α) = m at h
  induction h with
  | nil => rfl
  | left hsub ih => rw [ih hm]
  | right hsub ih => exact absurd hm (by simp)

theorem chain_spec_progress (term : JobEv)
    (hterm : (∃ c r, term = JobEv.complete c r) ∨ ∃ c, term = JobEv.fail c) :
    ∀ (ks : List Nat) (s : BulkAnalysisJob), s.status = .processing →
      List.Chain' (fun a b => specStep a.status b.status)
        (List.scanl applyEv s ((ks.map JobEv.progress) ++ [term])) := by
  intro ks
  induction ks with
  | nil =>
    intro s hs
    rw [List.map_nil, List.nil_append, chain'_scanl_cons]
    constructor
    · rcases hterm with ⟨c, r, rfl⟩ | ⟨c, rfl⟩
      · rw [applyEv_complete]
        show specStep s.status JobStatus.completed
        rw [hs]
        decide
      · rw [applyEv_fail]
        show specStep s.status JobStatus.failed
        rw [hs]
        decide
    · simp
  | cons a ks ih =>
    intro s hs
    rw [List.map_cons, List.cons_append, chain'_scanl_cons]
    constructor
    · exact Or.inl rfl
    · exact ih _ (by rw [applyEv_progress]; exact hs)

theorem chain_spec_runner (s : BulkAnalysisJob) (hs : s.status = .pending)
    (k : Nat) (term : JobEv)
    (hterm : (∃ c r, term = JobEv.complete c r) ∨ ∃ c, term = JobEv.fail c) :
    List.Chain' (fun a b => specStep a.status b.status)
      (List.scanl applyEv s (runnerEvents k term)) := by
  unfold runnerEvents
  rw [chain'_scanl_cons]
  constructor
  · rw [applyEv_claim]
    show specStep s.status JobStatus.processing
    rw [hs]
    decide
  · rw [progressEvents_eq]
    exact chain_spec_progress term hterm _ _ (by rw [applyEv_claim])

/-- Claim C2 (amended): along every interleaving of one runner trace
(with progress counts bounded by the total) with external delete/cancel
events, processed never exceeds total in any reachable state, every
consecutive status pair satisfies the amended transition relation (the
claimed edges plus Pending to Failed by an external cancel, and Failed
back to Processing / Failed to Completed when a still-running runner
overwrites a cancellation), and in the absence of cancel events the
original claimed relation holds throughout. -/
theorem c2_status_transitions (jobId sess fn ca : String) (n k : Nat) (term : JobEv)
    (hterm : (∃ c r, term = JobEv.complete c r) ∨ ∃ c, term = JobEv.fail c)
    (hk : k ≤ n) (cancels zs : List JobEv)
    (honly : ∀ e ∈ cancels, e = JobEv.cancel)
    (hI : Interleave (runnerEvents k term) cancels zs) :
    (∀ x ∈ List.scanl applyEv (initJob jobId sess fn n ca) zs,
        x.processedUrls ≤ x.totalUrls)
      ∧ List.Chain' (fun a b => amendedStep a.status b.status)
          (List.scanl applyEv (initJob jobId sess fn n ca) zs)
      ∧ (cancels = [] →
          List.Chain' (fun a b => specStep a.status b.status)
            (List.scanl applyEv (initJob jobId sess fn n ca) zs)) := by
  have hbound : ∀ a ∈ (List.range k).map (fun i => i + 1), a ≤ n := by
    intro a ha
    rw [List.mem_map] at ha
    obtain ⟨i, hi, rfl⟩ := ha
    rw [List.mem_range] at hi
    omega
  have hrt : RunnerTail n (progressEvents k ++ [term]) := by
    rw [progressEvents_eq]
    exact runnerTail_append n term hterm _ hbound
  have hmain := interleave_invariant n (initJob jobId sess fn n ca) hI honly
    (Or.inl ⟨progressEvents k ++ [term], rfl, hrt, Or.inl rfl⟩)
    (by simp [initJob]) rfl
  refine ⟨hmain.1, hmain.2, ?_⟩
  intro hc
  subst hc
  rw [interleave_nil_right hI]
  exact chain_spec_runner _ rfl k term hterm

/-- Terminal event of the concrete C2 trace. -/
def c2Term : JobEv := JobEv.complete "2025-08-13T10:05:00Z" "results/job-1_results.csv"

/-- Concrete interleaved trace for C2: the cancel request lands while
the runner is processing the one-URL job (the delete route marks it
failed), and the still-running runner then updates progress and marks
the job completed, overwriting the cancellation. -/
def c2Trace : List JobEv := [JobEv.claim, JobEv.cancel, JobEv.progress 1, c2Term]

/-- Initial job record for the concrete C2 trace. -/
def c2Init : BulkAnalysisJob := initJob "job-1" "session-a" "urls.csv" 1 "2025-08-13T10:00:00Z"

/-- Claim C2 counterexample: the concrete trace is a legal interleaving
of a one-URL runner with a single external cancel during processing, yet
its status history is pending, processing, failed, failed, completed:
the final step moves the job from Failed to Completed, a backward
transition not among the claimed edges
Pending to Processing to Completed or Failed, so the claimed relation is
violated along a reachable execution. -/
theorem c2_counterexample :
    Interleave (runnerEvents 1 c2Term) [JobEv.cancel] c2Trace
      ∧ (List.scanl applyEv c2Init c2Trace).map BulkAnalysisJob.status
          = [JobStatus.pending, JobStatus.processing, JobStatus.failed,
             JobStatus.failed, JobStatus.completed]
      ∧ ¬ specStep JobStatus.failed JobStatus.completed
      ∧ ¬ specStep JobStatus.pending JobStatus.failed
      ∧ ¬ List.Chain' (fun a b => specStep a.status b.status)
            (List.scanl applyEv c2Init c2Trace) := by
  refine ⟨?_, by decide, by decide, by decide, ?_⟩
  · exact Interleave.left (Interleave.right (Interleave.left
      (Interleave.left Interleave.nil)))
  · intro hch
    have h2 : List.Chain' specStep
        ((List.scanl applyEv c2Init c2Trace).map BulkAnalysisJob.status) :=
      (List.chain'_map _).mpr hch
    rw [show (List.scanl applyEv c2Init c2Trace).map BulkAnalysisJob.status
        = [JobStatus.pending, JobStatus.processing, JobStatus.failed,
           JobStatus.failed, JobStatus.completed] from by decide] at h2
    rw [List.chain'_cons, List.chain'_cons, List.chain'_cons, List.chain'_cons] at h2
    exact absurd h2.2.2.2.1 (by decide)

/-- Claim C2 (amended) witness: the amended invariant applied to the
concrete interleaving of the one-URL runner with one cancel event,
discharging the terminal-shape, bound, cancel-only and interleaving
hypotheses. -/
theorem c2_status_transitions_witness :
    (∀ x ∈ List.scanl applyEv c2Init c2Trace, x.processedUrls ≤ x.totalUrls)
      ∧ List.Chain' (fun a b => amendedStep a.status b.status)
          (List.scanl applyEv c2Init c2Trace) := by
  have h := c2_status_transitions "job-1" "session-a" "urls.csv" "2025-08-13T10:00:00Z"
    1 1 c2Term (Or.inl ⟨"2025-08-13T10:05:00Z", "results/job-1_results.csv", rfl⟩)
    (le_refl 1) [JobEv.cancel] c2Trace
    (by intro e he; simpa using he)
    (Interleave.left (Interleave.right (Interleave.left
      (Interleave.left Interleave.nil))))
  exact ⟨h.1, h.2.1⟩

end SeoWatch
